import Mathlib

/-
Verification of the funds-movement saga of the serverless-martian-bank
repository (domains/transactions, domains/loans, domains/accounts and the
shared event layer in lib/layers/python/events).

The Python handlers operate on IEEE-754 binary64 values: request bodies are
parsed with `float(...)`, MongoDB stores `balance` and `amount` as doubles and
`$inc` performs double addition, and the event codec converts
`Decimal`/`float`/JSON number representations into one another.  We therefore
model every number as an exact rational (`ℚ`) and make each conversion point
explicit:

* `doubleRound q` — the binary64 value nearest to `q` (round to nearest, ties
  to even), as an exact rational.  Subnormal values are handled by flooring
  the scale at 2^(-1074); values beyond the binary64 overflow threshold do
  not occur in this development and are not given special treatment.
* `floatRepr x` — the exact decimal value of Python's `repr`/`str` of the
  double `x`: the value of the shortest decimal literal (up to 17 significant
  digits, correctly rounded) that parses back to `x`.  This models
  `Decimal(str(x))` and the JSON text produced by `json.dumps` for a float.
-/

unseal Rat.add Rat.sub Rat.mul Rat.inv

set_option maxRecDepth 100000

namespace MartianBank

/-- Fuel-driven integer logarithm: `logFuel b f n` is the number of times `n`
can be divided by `b` before dropping below `b`, provided `f` bounds the
recursion depth.  Structural in the fuel so that kernel reduction works. -/
def logFuel (b : ℕ) : ℕ → ℕ → ℕ
  | 0, _ => 0
  | f + 1, n => if n < b then 0 else 1 + logFuel b f (n / b)

/-- `natLogB b n` = ⌊log_b n⌋ for `b ≥ 2`, `n ≥ 1` (0 on degenerate inputs). -/
def natLogB (b n : ℕ) : ℕ := logFuel b n n

/-- Integer powers of a rational, written without `zpow` so that kernel
reduction stays predictable. -/
def qpow (b : ℚ) : ℤ → ℚ
  | Int.ofNat n => b ^ n
  | Int.negSucc n => (b ^ (n + 1))⁻¹

/-- Round a rational to the nearest integer, ties to even. -/
def roundNearestEven (q : ℚ) : ℤ :=
  if q - ⌊q⌋ < 1/2 then ⌊q⌋
  else if 1/2 < q - ⌊q⌋ then ⌊q⌋ + 1
  else if ⌊q⌋ % 2 = 0 then ⌊q⌋ else ⌊q⌋ + 1

/-- ⌊log_b |q|⌋ for a nonzero rational `q` (intended for positive `q`). -/
def floorLogB (b : ℕ) (q : ℚ) : ℤ :=
  let g : ℤ := (natLogB b q.num.natAbs : ℤ) - (natLogB b q.den : ℤ)
  if q < qpow (b : ℚ) g then g - 1 else g

/-- The binary64 double nearest to `q` (round to nearest, ties to even), as
an exact rational: the mantissa is `q` scaled to 53 bits and rounded, with
the scale floored at 2^(-1074) for subnormals. -/
def doubleRound (q : ℚ) : ℚ :=
  if q = 0 then 0
  else
    let e := floorLogB 2 |q|
    let scale : ℤ := max (e - 52) (-1074)
    (roundNearestEven (q / qpow 2 scale) : ℚ) * qpow 2 scale

/-- `q` correctly rounded to `n` significant decimal digits. -/
def roundSigDigits (q : ℚ) (n : ℕ) : ℚ :=
  if q = 0 then 0
  else
    let scale : ℤ := floorLogB 10 |q| - ((n : ℤ) - 1)
    (roundNearestEven (q / qpow 10 scale) : ℚ) * qpow 10 scale

/-- The exact decimal value of Python's `repr` (= `str`) of the double `x`:
the shortest correctly-rounded decimal (at most 17 significant digits) that
parses back to `x`.  Models `Decimal(str(x))` for a float `x` and the JSON
number text emitted for it. -/
def floatRepr (x : ℚ) : ℚ :=
  match (List.range 17).find? (fun i => decide (doubleRound (roundSigDigits x (i + 1)) = x)) with
  | some i => roundSigDigits x (i + 1)
  | none => x

/-!
### Data model

Documents of the three MongoDB collections (`accounts`, `transactions`,
`loans`), as written by the handlers under `src/domains`.  `balance`,
`amount` and `loan_amount` are binary64 doubles in the store; they are
represented here as the exact rational value of the stored double.
MongoDB's `_id` of an inserted document is modelled by its position in the
collection list (insertion appends).
-/

/-- An `accounts` collection document (the fields the saga core reads). -/
structure Account where
  account_number : String
  email : String
  balance : ℚ
deriving Repr, DecidableEq

/-- A `transactions` collection document as inserted by `send_money.py` /
`zelle.py`: `{sender, receiver, amount, reason, status}` plus the `error`
field attached when a publish fails (`time_stamp` is not modelled). -/
structure TransactionDoc where
  sender : String
  receiver : String
  amount : ℚ
  reason : String
  status : String
  error : Option String
deriving Repr, DecidableEq

/-- A `loans` collection document as inserted by `process_loan.py`
(`timestamp` is not modelled). -/
structure LoanDoc where
  name : String
  email : String
  account_type : String
  account_number : String
  govt_id_type : String
  govt_id_number : String
  loan_type : String
  loan_amount : ℚ
  interest_rate : ℚ
  time_period : ℕ
  status : String
deriving Repr, DecidableEq

/-- The Ledger Store: the three collections of the `bank` database. -/
structure Store where
  accounts : List Account
  transactions : List TransactionDoc
  loans : List LoanDoc
deriving Repr, DecidableEq

/-!
### Store operations

Every persistent write the four saga handlers issue has one of the following
shapes: `insert_one` on `transactions`/`loans`, `update_one` with
`{"$set": {"status": ..., "error": ...}}` on `transactions`, and
`update_one` with `{"$inc": {"balance": delta}}` on `accounts`.  The
`setBalance` constructor is the absolute-overwrite write
(`{"$set": {"balance": v}}`) that the data-model invariant forbids; it is
part of the operation vocabulary so the invariant can be stated, and no
handler ever emits it.
-/

/-- One persistent write against the Ledger Store. -/
inductive StoreOp where
  | insertTransaction (t : TransactionDoc)
  | insertLoan (l : LoanDoc)
  | setTransactionFields (id : ℕ) (status : String) (error : Option String)
  | incBalance (account_number : String) (delta : ℚ)
  | setBalance (account_number : String) (value : ℚ)
deriving Repr, DecidableEq

/-- Does this write overwrite an account's `balance` absolutely
(`$set` on `balance`), rather than incrementing it (`$inc`)? -/
def StoreOp.isBalanceOverwrite : StoreOp → Bool
  | .setBalance _ _ => true
  | _ => false

/-- `find_one({"account_number": num})`: first document matching. -/
def findByNumber (accounts : List Account) (num : String) : Option Account :=
  accounts.find? (fun a => a.account_number == num)

/-- `find_one({"email": em})`: first document matching. -/
def findByEmail (accounts : List Account) (em : String) : Option Account :=
  accounts.find? (fun a => a.email == em)

/-- `update_one({"account_number": num}, {"$inc": {"balance": delta}})`:
increment the balance of the first matching account; the stored double
becomes the binary64 rounding of the exact sum. -/
def incFirstBalance : List Account → String → ℚ → List Account
  | [], _, _ => []
  | a :: rest, num, delta =>
    if a.account_number == num then
      { a with balance := doubleRound (a.balance + delta) } :: rest
    else
      a :: incFirstBalance rest num delta

/-- `modified_count` of the `$inc` update above: 1 when a document matched
and its stored value actually changed, else 0 (MongoDB counts only
documents the update changed). -/
def incModifiedCount (accounts : List Account) (num : String) (delta : ℚ) : ℕ :=
  match findByNumber accounts num with
  | none => 0
  | some a => if doubleRound (a.balance + delta) = a.balance then 0 else 1

/-- `update_one({"_id": id}, {"$set": {"status": s, "error": e}})` on the
transactions collection, with `id` the insertion index. -/
def setTxnFields : List TransactionDoc → ℕ → String → Option String → List TransactionDoc
  | [], _, _, _ => []
  | t :: rest, 0, s, e => { t with status := s, error := e } :: rest
  | t :: rest, i + 1, s, e => t :: setTxnFields rest i s e

/-- Apply one write to the store. -/
def Store.applyOp (s : Store) : StoreOp → Store
  | .insertTransaction t => { s with transactions := s.transactions ++ [t] }
  | .insertLoan l => { s with loans := s.loans ++ [l] }
  | .setTransactionFields i st e => { s with transactions := setTxnFields s.transactions i st e }
  | .incBalance num d => { s with accounts := incFirstBalance s.accounts num d }
  | .setBalance num v =>
    { s with accounts := s.accounts.map (fun a => if a.account_number == num then { a with balance := v } else a) }

/-- Apply a sequence of writes in order. -/
def Store.applyOps (s : Store) (ops : List StoreOp) : Store := ops.foldl Store.applyOp s

/-!
### Event codec (`lib/layers/python/events/`)

`to_eventbridge` produces the EventBridge entry
`{Source, DetailType, Detail}` where `Detail` is the JSON encoding of the
event's fields, the amount serialized as `float(self.amount)`.  The JSON
text round-trips the double exactly (`json.dumps` emits the shortest
`repr` and `json.loads` parses it back to the same double), so `Detail`
is modelled as the parsed payload record carrying the double value
`doubleRound amount`.  `from_eventbridge` rebuilds the event with
`Decimal(str(detail['amount']))`, i.e. `floatRepr` of that double; a
payload of the wrong shape raises `KeyError` in Python, modelled as `none`.
-/

/-- The parsed `Detail` payload of a bus envelope. -/
inductive Detail where
  | transactionCompleted (fromAccount toAccount : String) (amount : ℚ) (reason : String)
  | loanGranted (accountNumber : String) (amount : ℚ)
deriving Repr, DecidableEq

/-- A bus envelope: `{Source, DetailType, Detail}`. -/
structure Envelope where
  source : String
  detail_type : String
  detail : Detail
deriving Repr, DecidableEq

/-- `TransactionCompletedEvent` (`events/transaction_completed.py`);
`amount` is a `Decimal`, modelled as its exact rational value. -/
structure TransactionCompletedEvent where
  from_account : String
  to_account : String
  amount : ℚ
  reason : String
deriving Repr, DecidableEq

/-- `TransactionCompletedEvent.SOURCE`. -/
def TransactionCompletedEvent.SOURCE : String := "martian-bank.transactions"

/-- `TransactionCompletedEvent.TYPE`. -/
def TransactionCompletedEvent.TYPE : String := "transaction.completed"

/-- `TransactionCompletedEvent.to_eventbridge`. -/
def TransactionCompletedEvent.to_eventbridge (e : TransactionCompletedEvent) : Envelope :=
  { source := TransactionCompletedEvent.SOURCE
    detail_type := TransactionCompletedEvent.TYPE
    detail := .transactionCompleted e.from_account e.to_account (doubleRound e.amount) e.reason }

/-- `TransactionCompletedEvent.from_eventbridge`. -/
def TransactionCompletedEvent.from_eventbridge (env : Envelope) : Option TransactionCompletedEvent :=
  match env.detail with
  | .transactionCompleted f t a r => some ⟨f, t, floatRepr a, r⟩
  | _ => none

/-- `LoanGrantedEvent` (`events/loan_granted.py`). -/
structure LoanGrantedEvent where
  account_number : String
  amount : ℚ
deriving Repr, DecidableEq

/-- `LoanGrantedEvent.SOURCE`. -/
def LoanGrantedEvent.SOURCE : String := "martian-bank.loans"

/-- `LoanGrantedEvent.TYPE`. -/
def LoanGrantedEvent.TYPE : String := "loan.granted"

/-- `LoanGrantedEvent.to_eventbridge`. -/
def LoanGrantedEvent.to_eventbridge (e : LoanGrantedEvent) : Envelope :=
  { source := LoanGrantedEvent.SOURCE
    detail_type := LoanGrantedEvent.TYPE
    detail := .loanGranted e.account_number (doubleRound e.amount) }

/-- `LoanGrantedEvent.from_eventbridge`. -/
def LoanGrantedEvent.from_eventbridge (env : Envelope) : Option LoanGrantedEvent :=
  match env.detail with
  | .loanGranted n a => some ⟨n, floatRepr a⟩
  | _ => none

/-!
### Handlers

Each handler is a function of its request, the Event Bus publish outcome
(`Except String Unit`, the external collaborator: `.ok ()` when
`put_events` succeeds, `.error msg` when it raises), and the current
store.  It returns the HTTP-style response, the writes it issued in order
(`trace`), the resulting store (the trace applied), and the envelopes that
were accepted by the bus.
-/

/-- What a handler invocation did: the HTTP status and body fields of the
returned response (`approved`, `message`, `error`, the created record's
identifier), the writes issued in order, the resulting store, and the
envelopes accepted by the bus. -/
structure HandlerOutcome where
  response_status : ℕ
  approved : Option Bool
  message : Option String
  error_msg : Option String
  record_id : Option ℕ
  trace : List StoreOp
  store : Store
  published : List Envelope
deriving Repr, DecidableEq

/-- An early-return error response `{"approved": false, "message": msg}`
with no writes and no publish. -/
def rejection (status : ℕ) (msg : String) (store : Store) : HandlerOutcome :=
  { response_status := status, approved := some false, message := some msg
    error_msg := none, record_id := none, trace := [], store := store, published := [] }

/-- The request body of `send_money.py` (`amount` is the decimal literal in
the request JSON; the handler parses it with `float(...)`). -/
structure SendMoneyRequest where
  sender_account_number : String
  receiver_account_number : String
  amount : ℚ
  reason : Option String
deriving Repr, DecidableEq

/-- `domains/transactions/application/handlers/send_money.py`, `handler`. -/
def send_money (req : SendMoneyRequest) (publish : Except String Unit) (store : Store) : HandlerOutcome :=
  let amount := doubleRound req.amount
  if amount ≤ 0 then rejection 400 "Invalid amount" store
  else
    match findByNumber store.accounts req.sender_account_number with
    | none => rejection 404 "Sender Account Not Found" store
    | some sender_account =>
      match findByNumber store.accounts req.receiver_account_number with
      | none => rejection 404 "Receiver Account Not Found" store
      | some receiver_account =>
        if sender_account.balance < amount then rejection 400 "Insufficient Balance" store
        else
          let txn : TransactionDoc :=
            { sender := sender_account.account_number, receiver := receiver_account.account_number
              amount := amount, reason := req.reason.getD "Transfer", status := "pending", error := none }
          let txnId := store.transactions.length
          let ev : TransactionCompletedEvent :=
            { from_account := sender_account.account_number, to_account := receiver_account.account_number
              amount := floatRepr amount, reason := req.reason.getD "Transfer" }
          match publish with
          | .ok _ =>
            let trace := [StoreOp.insertTransaction txn, StoreOp.setTransactionFields txnId "completed" none]
            { response_status := 200, approved := some true, message := some "Transaction is Successful"
              error_msg := none, record_id := some txnId, trace := trace
              store := store.applyOps trace, published := [ev.to_eventbridge] }
          | .error e =>
            let trace := [StoreOp.insertTransaction txn, StoreOp.setTransactionFields txnId "failed" (some e)]
            { response_status := 500, approved := none, message := none
              error_msg := some e, record_id := none, trace := trace
              store := store.applyOps trace, published := [] }

/-- The request body of `zelle.py` (addressing by e-mail). -/
structure ZelleRequest where
  sender_email : String
  receiver_email : String
  amount : ℚ
  reason : Option String
deriving Repr, DecidableEq

/-- `domains/transactions/application/handlers/zelle.py`, `handler`.
A missing `account_number` field on a matched account (falsy in Python)
is modelled by the empty string. -/
def zelle (req : ZelleRequest) (publish : Except String Unit) (store : Store) : HandlerOutcome :=
  let amount := doubleRound req.amount
  if amount ≤ 0 then rejection 400 "Invalid amount" store
  else
    match findByEmail store.accounts req.sender_email with
    | none => rejection 404 "Sender Account Not Found" store
    | some sender_account =>
      match findByEmail store.accounts req.receiver_email with
      | none => rejection 404 "Receiver Account Not Found" store
      | some receiver_account =>
        if sender_account.account_number = "" ∨ receiver_account.account_number = "" then
          rejection 500 "Account number missing" store
        else if sender_account.balance < amount then rejection 400 "Insufficient Balance" store
        else
          let txn : TransactionDoc :=
            { sender := sender_account.account_number, receiver := receiver_account.account_number
              amount := amount, reason := req.reason.getD "Zelle Transfer", status := "pending", error := none }
          let txnId := store.transactions.length
          let ev : TransactionCompletedEvent :=
            { from_account := sender_account.account_number, to_account := receiver_account.account_number
              amount := floatRepr amount, reason := req.reason.getD "Zelle Transfer" }
          match publish with
          | .ok _ =>
            let trace := [StoreOp.insertTransaction txn, StoreOp.setTransactionFields txnId "completed" none]
            { response_status := 200, approved := some true, message := some "Transaction is Successful"
              error_msg := none, record_id := some txnId, trace := trace
              store := store.applyOps trace, published := [ev.to_eventbridge] }
          | .error e =>
            let trace := [StoreOp.insertTransaction txn, StoreOp.setTransactionFields txnId "failed" (some e)]
            { response_status := 500, approved := none, message := none
              error_msg := some e, record_id := none, trace := trace
              store := store.applyOps trace, published := [] }

/-- The request body of `process_loan.py`. -/
structure ProcessLoanRequest where
  name : String
  email : String
  govt_id_type : String
  govt_id_number : String
  loan_type : String
  loan_amount : ℚ
  interest_rate : ℚ
  time_period : ℕ
deriving Repr, DecidableEq

/-- The `accountDetails` sub-record supplied by the previous Step Functions
step to `process_loan.py`. -/
structure AccountDetails where
  account_type : String
  account_number : String
deriving Repr, DecidableEq

/-- `domains/loans/application/handlers/process_loan.py`, `handler`.
The Loan document is inserted with `status = "approved"` before the
publish; a publish failure is caught only by the outer `except`, which
returns 500 without touching the inserted document. -/
def process_loan (req : ProcessLoanRequest) (accountDetails : Option AccountDetails)
    (publish : Except String Unit) (store : Store) : HandlerOutcome :=
  let loan_amount := doubleRound req.loan_amount
  if loan_amount ≤ 0 then rejection 400 "Invalid loan amount" store
  else
    match accountDetails with
    | none => rejection 404 "Account details not found" store
    | some account =>
      let loan : LoanDoc :=
        { name := req.name, email := req.email, account_type := account.account_type
          account_number := account.account_number, govt_id_type := req.govt_id_type
          govt_id_number := req.govt_id_number, loan_type := req.loan_type
          loan_amount := loan_amount, interest_rate := doubleRound req.interest_rate
          time_period := req.time_period, status := "approved" }
      let loanId := store.loans.length
      let trace := [StoreOp.insertLoan loan]
      let ev : LoanGrantedEvent := { account_number := account.account_number, amount := floatRepr loan_amount }
      match publish with
      | .ok _ =>
        { response_status := 200, approved := some true, message := some "Loan Approved"
          error_msg := none, record_id := some loanId, trace := trace
          store := store.applyOps trace, published := [ev.to_eventbridge] }
      | .error e =>
        { response_status := 500, approved := none, message := none
          error_msg := some e, record_id := none, trace := trace
          store := store.applyOps trace, published := [] }

/-- `domains/accounts/application/handlers/update_balance.py`, `handler`:
the Balance Updater, invoked with one envelope.  A decode failure
(`KeyError` on a malformed `Detail`) is caught by the outer `except` → 500. -/
def update_balance (env : Envelope) (store : Store) : HandlerOutcome :=
  if env.source = TransactionCompletedEvent.SOURCE then
    match TransactionCompletedEvent.from_eventbridge env with
    | none =>
      { response_status := 500, approved := none, message := none, error_msg := none
        record_id := none, trace := [], store := store, published := [] }
    | some transaction =>
      let delta := doubleRound transaction.amount
      let senderOp := StoreOp.incBalance transaction.from_account (-delta)
      if incModifiedCount store.accounts transaction.from_account (-delta) = 0 then
        { response_status := 500, approved := none, message := none, error_msg := none
          record_id := none, trace := [senderOp], store := store.applyOps [senderOp], published := [] }
      else
        let store1 := store.applyOps [senderOp]
        let receiverOp := StoreOp.incBalance transaction.to_account delta
        if incModifiedCount store1.accounts transaction.to_account delta = 0 then
          { response_status := 500, approved := none, message := none, error_msg := none
            record_id := none, trace := [senderOp, receiverOp]
            store := store1.applyOps [receiverOp], published := [] }
        else
          { response_status := 200, approved := none, message := none, error_msg := none
            record_id := none, trace := [senderOp, receiverOp]
            store := store1.applyOps [receiverOp], published := [] }
  else if env.source = LoanGrantedEvent.SOURCE then
    match LoanGrantedEvent.from_eventbridge env with
    | none =>
      { response_status := 500, approved := none, message := none, error_msg := none
        record_id := none, trace := [], store := store, published := [] }
    | some loan =>
      let delta := doubleRound loan.amount
      let op := StoreOp.incBalance loan.account_number delta
      if incModifiedCount store.accounts loan.account_number delta = 0 then
        { response_status := 500, approved := none, message := none, error_msg := none
          record_id := none, trace := [op], store := store.applyOps [op], published := [] }
      else
        { response_status := 200, approved := none, message := none, error_msg := none
          record_id := none, trace := [op], store := store.applyOps [op], published := [] }
  else
    { response_status := 200, approved := none, message := none, error_msg := none
      record_id := none, trace := [], store := store, published := [] }

/-- The producer step of a transfer followed by the consumer step on the
envelope it published (the one-transfer saga, with the publish
succeeding).  Pure composition of `send_money` and `update_balance`. -/
def sendMoneyThenUpdate (req : SendMoneyRequest) (store : Store) : HandlerOutcome :=
  match send_money req (.ok ()) store with
  | producer =>
    match producer.published with
    | [env] => update_balance env producer.store
    | _ => producer

/-!
### Concrete fixtures used by witnesses and counterexamples
-/

/-- The spec's §8 concrete scenario store: sender `ACC1` with balance
1000.00 and receiver `ACC2` with balance 500.00. -/
def demoStore : Store :=
  { accounts := [⟨"ACC1", "alice@example.com", 1000⟩, ⟨"ACC2", "bob@example.com", 500⟩]
    transactions := [], loans := [] }

/-- A well-formed loan request (amounts as decimal request literals). -/
def loanReq : ProcessLoanRequest :=
  ⟨"Max Mustermann", "max@example.com", "ID Card", "AB123456", "Personal", 10000, 11/2, 12⟩

/-- A loan request for an enormous amount (10^9). -/
def hugeLoanReq : ProcessLoanRequest :=
  ⟨"Max Mustermann", "max@example.com", "ID Card", "AB123456", "Personal", 1000000000, 11/2, 12⟩

/-- Pre-resolved account details as supplied by the Step Functions step. -/
def loanAcct : AccountDetails := ⟨"Savings", "1234567890"⟩

/-- A transfer request for the decimal amount 0.10. -/
def dimeReq : SendMoneyRequest := ⟨"ACC1", "ACC2", 1/10, none⟩

/-- A Zelle (by-email) transfer request for 100.50 between the fixture
accounts. -/
def zelleReq : ZelleRequest := ⟨"alice@example.com", "bob@example.com", 201/2, none⟩

/-- The §8 scenario transfer request: amount 100.50, reason "Test transfer". -/
def scenarioReq : SendMoneyRequest := ⟨"ACC1", "ACC2", 201/2, some "Test transfer"⟩

/-- A store whose balances are the doubles `float(0.1)` and `float(0.2)`. -/
def tinyStore : Store :=
  { accounts := [⟨"ACC1", "alice@example.com", 3602879701896397/2^55⟩,
                 ⟨"ACC2", "bob@example.com", 3602879701896397/2^54⟩]
    transactions := [], loans := [] }

/-- A `TransactionCompleted` envelope carrying the double `float(0.1)`. -/
def tinyEnv : Envelope :=
  ⟨TransactionCompletedEvent.SOURCE, TransactionCompletedEvent.TYPE,
   .transactionCompleted "ACC1" "ACC2" (3602879701896397/2^55) "rent"⟩

/-!
### Helper lemmas
-/

/-- `qpow` of a positive base is positive. -/
theorem qpow_pos {b : ℚ} (hb : 0 < b) : ∀ z : ℤ, 0 < qpow b z
  | Int.ofNat n => pow_pos hb n
  | Int.negSucc n => inv_pos.mpr (pow_pos hb (n + 1))

/-- Nearest-even rounding of a nonpositive rational is nonpositive. -/
theorem roundNearestEven_nonpos {x : ℚ} (hx : x ≤ 0) : roundNearestEven x ≤ 0 := by
  have h0 : ⌊x⌋ ≤ 0 := by
    have := Int.floor_le_floor hx
    simpa using this
  unfold roundNearestEven
  by_cases h1 : x - (⌊x⌋ : ℚ) < 1/2
  · simp only [h1, if_true]
    exact h0
  · have h2 : (1 : ℚ)/2 ≤ x - (⌊x⌋ : ℚ) := le_of_not_lt h1
    have hfl : (⌊x⌋ : ℚ) ≤ x := Int.floor_le x
    have h3 : (⌊x⌋ : ℚ) < 0 := by linarith
    have h4 : ⌊x⌋ + 1 ≤ 0 := by exact_mod_cast Int.add_one_le_iff.mpr (by exact_mod_cast h3)
    simp only [h1, if_false]
    split
    · exact h4
    · split
      · exact h0
      · exact h4

/-- `doubleRound` preserves nonpositivity (needed because the handlers
parse the request amount through `float(...)` before the sign check). -/
theorem doubleRound_nonpos {q : ℚ} (hq : q ≤ 0) : doubleRound q ≤ 0 := by
  unfold doubleRound
  split
  · exact le_refl 0
  · have hpow : 0 < qpow 2 (max (floorLogB 2 |q| - 52) (-1074)) := qpow_pos (by norm_num) _
    have hdiv : q / qpow 2 (max (floorLogB 2 |q| - 52) (-1074)) ≤ 0 :=
      div_nonpos_iff.mpr (Or.inr ⟨hq, hpow.le⟩)
    have hm : roundNearestEven (q / qpow 2 (max (floorLogB 2 |q| - 52) (-1074))) ≤ 0 :=
      roundNearestEven_nonpos hdiv
    have hmq : (roundNearestEven (q / qpow 2 (max (floorLogB 2 |q| - 52) (-1074))) : ℚ) ≤ 0 := by
      exact_mod_cast hm
    exact mul_nonpos_iff.mpr (Or.inr ⟨hmq, hpow.le⟩)

/-- Updating the freshly appended transaction (insertion index = previous
length) rewrites exactly that document. -/
theorem setTxnFields_append (l : List TransactionDoc) (t : TransactionDoc) (s : String) (e : Option String) :
    setTxnFields (l ++ [t]) l.length s e = l ++ [{ t with status := s, error := e }] := by
  induction l with
  | nil => rfl
  | cons hd tl ih => simpa [setTxnFields] using ih

/-- A `$inc` whose `modified_count` is 0 leaves the accounts collection
unchanged. -/
theorem incFirstBalance_of_unmodified {l : List Account} {num : String} {d : ℚ}
    (h : incModifiedCount l num d = 0) : incFirstBalance l num d = l := by
  induction l with
  | nil => rfl
  | cons a tl ih =>
    cases hab : a.account_number == num with
    | true =>
      have hb : doubleRound (a.balance + d) = a.balance := by
        by_contra hne
        simp [incModifiedCount, findByNumber, List.find?, hab, hne] at h
      show (if (a.account_number == num) = true then
          { a with balance := doubleRound (a.balance + d) } :: tl
        else a :: incFirstBalance tl num d) = a :: tl
      rw [if_pos hab, hb]
    | false =>
      have htl : incModifiedCount tl num d = 0 := by
        simpa [incModifiedCount, findByNumber, List.find?, hab] using h
      show (if (a.account_number == num) = true then
          { a with balance := doubleRound (a.balance + d) } :: tl
        else a :: incFirstBalance tl num d) = a :: tl
      rw [if_neg (by simp [hab]), ih htl]

/-- `$inc` on one account number does not change what a lookup by a
different account number finds. -/
theorem findByNumber_incFirst_ne {l : List Account} {num num' : String} {d : ℚ} (h : num' ≠ num) :
    findByNumber (incFirstBalance l num d) num' = findByNumber l num' := by
  induction l with
  | nil => rfl
  | cons a tl ih =>
    cases hab : a.account_number == num with
    | true =>
      have ha' : (a.account_number == num') = false := by
        have hae : a.account_number = num := beq_iff_eq.mp hab
        rw [beq_eq_false_iff_ne, hae]
        exact Ne.symm h
      simp [incFirstBalance, findByNumber, List.find?, hab, ha']
    | false =>
      cases ha2 : a.account_number == num' with
      | true => simp [incFirstBalance, findByNumber, List.find?, hab, ha2]
      | false => simpa [incFirstBalance, findByNumber, List.find?, hab, ha2] using ih

/-- Looking up the incremented account number after a `$inc` finds the
account with its balance replaced by the rounded sum. -/
theorem findByNumber_incFirst_self {l : List Account} {num : String} {d : ℚ} :
    findByNumber (incFirstBalance l num d) num =
      (findByNumber l num).map (fun a => { a with balance := doubleRound (a.balance + d) }) := by
  induction l with
  | nil => rfl
  | cons a tl ih =>
    cases hab : a.account_number == num with
    | true => simp [incFirstBalance, findByNumber, List.find?, hab]
    | false => simpa [incFirstBalance, findByNumber, List.find?, hab] using ih

/-- `$inc` leaves every position whose account number differs from the
incremented one untouched. -/
theorem incFirst_getElem_ne {l : List Account} {num : String} {d : ℚ} {i : ℕ}
    (h : ∀ a, l[i]? = some a → a.account_number ≠ num) :
    (incFirstBalance l num d)[i]? = l[i]? := by
  induction l generalizing i with
  | nil => rfl
  | cons a tl ih =>
    cases hab : a.account_number == num with
    | true =>
      cases i with
      | zero => exact absurd (beq_iff_eq.mp hab) (h a (by simp))
      | succ j => simp [incFirstBalance, hab]
    | false =>
      cases i with
      | zero => simp [incFirstBalance, hab]
      | succ j =>
        simp only [incFirstBalance, hab, if_false, Bool.false_eq_true, List.getElem?_cons_succ]
        exact ih (fun b hb => h b (by simpa using hb))

/-- On a `TransactionCompleted` envelope whose two `$inc` updates both
modify a document, the Balance Updater succeeds and the accounts
collection is the sender debit followed by the receiver credit. -/
theorem update_balance_tc_success {store : Store} {f t : String} {a : ℚ} {r dt : String} {S R : Account}
    (hS : findByNumber store.accounts f = some S)
    (hR : findByNumber store.accounts t = some R)
    (hft : f ≠ t)
    (hm1 : doubleRound (S.balance + -(doubleRound (floatRepr a))) ≠ S.balance)
    (hm2 : doubleRound (R.balance + doubleRound (floatRepr a)) ≠ R.balance) :
    (update_balance ⟨TransactionCompletedEvent.SOURCE, dt, .transactionCompleted f t a r⟩ store).response_status = 200 ∧
    (update_balance ⟨TransactionCompletedEvent.SOURCE, dt, .transactionCompleted f t a r⟩ store).store.accounts =
      incFirstBalance (incFirstBalance store.accounts f (-(doubleRound (floatRepr a)))) t
        (doubleRound (floatRepr a)) := by
  have hc1 : incModifiedCount store.accounts f (-(doubleRound (floatRepr a))) = 1 := by
    simp [incModifiedCount, hS, hm1]
  have hfind1 : findByNumber (incFirstBalance store.accounts f (-(doubleRound (floatRepr a)))) t = some R := by
    rw [findByNumber_incFirst_ne (Ne.symm hft)]
    exact hR
  have hc2 : incModifiedCount (incFirstBalance store.accounts f (-(doubleRound (floatRepr a)))) t
      (doubleRound (floatRepr a)) = 1 := by
    simp [incModifiedCount, hfind1, hm2]
  constructor <;>
    simp [update_balance, TransactionCompletedEvent.from_eventbridge,
      Store.applyOps, Store.applyOp, hc1, hc2]

/-!
### Claims
-/

/-- Claim C9: for every event whose source is neither the transactions
source constant nor the loans source constant, the Balance Updater returns
success (no-op) and leaves every account document in the store unchanged:
the whole outcome is a 200 with empty trace and identical store. -/
theorem C9_unknown_source_noop (env : Envelope) (store : Store)
    (h1 : env.source ≠ TransactionCompletedEvent.SOURCE)
    (h2 : env.source ≠ LoanGrantedEvent.SOURCE) :
    update_balance env store =
      { response_status := 200, approved := none, message := none, error_msg := none
        record_id := none, trace := [], store := store, published := [] } := by
  unfold update_balance
  rw [if_neg h1, if_neg h2]

/-- Witness for C9 at the concrete source `"aws.health"` over `demoStore`. -/
theorem C9_witness :
    update_balance ⟨"aws.health", "x", .loanGranted "ACC1" 5⟩ demoStore =
      { response_status := 200, approved := none, message := none, error_msg := none
        record_id := none, trace := [], store := demoStore, published := [] } :=
  C9_unknown_source_noop _ _ (by decide) (by decide)

/-- Claim C4 (amended): the envelope produced by the codec has exactly the
shape `{source, detail_type, detail}` with the fixed per-event-kind source
constant, and decoding the encoded envelope restores every field except
that the amount passes through the float wire conversion
`floatRepr ∘ doubleRound` (which is *not* the identity on all decimal
values, see the counterexample). -/
theorem C4_codec_roundtrip (e : TransactionCompletedEvent) (l : LoanGrantedEvent) :
    e.to_eventbridge.source = TransactionCompletedEvent.SOURCE ∧
    e.to_eventbridge.detail_type = TransactionCompletedEvent.TYPE ∧
    l.to_eventbridge.source = LoanGrantedEvent.SOURCE ∧
    l.to_eventbridge.detail_type = LoanGrantedEvent.TYPE ∧
    TransactionCompletedEvent.from_eventbridge e.to_eventbridge =
      some { e with amount := floatRepr (doubleRound e.amount) } ∧
    LoanGrantedEvent.from_eventbridge l.to_eventbridge =
      some { l with amount := floatRepr (doubleRound l.amount) } :=
  ⟨rfl, rfl, rfl, rfl, rfl, rfl⟩

/-- Counterexample to C4 as stated: decode after encode is not the
identity on the currency amount — the wire encoding goes through a
binary64 `float`, so the 17-digit decimal amount 0.10000000000000001
comes back as 0.1. -/
theorem C4_counterexample :
    TransactionCompletedEvent.from_eventbridge
        (TransactionCompletedEvent.to_eventbridge
          ⟨"ACC1", "ACC2", 10000000000000001/100000000000000000, "rent"⟩) =
      some ⟨"ACC1", "ACC2", 1/10, "rent"⟩ ∧
    (1 : ℚ)/10 ≠ 10000000000000001/100000000000000000 :=
  ⟨by decide, by decide⟩

/-- Claim C5: in every operation of the core (both transfer initiators,
the loan originator, and every Balance Updater event-handling path), every
write an invocation issues against an account's `balance` is a relative
`$inc`, never an absolute `$set` overwrite — over all requests, publish
outcomes, envelopes and store states. -/
theorem C5_balance_mutations_relative (reqS : SendMoneyRequest) (reqZ : ZelleRequest)
    (reqL : ProcessLoanRequest) (acct : Option AccountDetails) (pub : Except String Unit)
    (env : Envelope) (store : Store) :
    ((send_money reqS pub store).trace.all (fun op => !op.isBalanceOverwrite)) = true ∧
    ((zelle reqZ pub store).trace.all (fun op => !op.isBalanceOverwrite)) = true ∧
    ((process_loan reqL acct pub store).trace.all (fun op => !op.isBalanceOverwrite)) = true ∧
    ((update_balance env store).trace.all (fun op => !op.isBalanceOverwrite)) = true := by
  refine ⟨?_, ?_, ?_, ?_⟩
  · simp only [send_money]
    repeat' split
    all_goals simp [rejection, StoreOp.isBalanceOverwrite]
  · simp only [zelle]
    repeat' split
    all_goals simp [rejection, StoreOp.isBalanceOverwrite]
  · simp only [process_loan]
    repeat' split
    all_goals simp [rejection, StoreOp.isBalanceOverwrite]
  · simp only [update_balance]
    repeat' split
    all_goals simp [StoreOp.isBalanceOverwrite]

/-- Counterexample to C1 as stated: with the publish failing, the Loan
Originator still leaves the stored Loan at `status = approved` with no
error attached — the document was inserted as `approved` (never
`pending`), is not transitioned to `failed`, and thus reaches `approved`
without a successful publish (the failure itself is propagated as a 500
and nothing is published). -/
theorem C1_counterexample :
    (process_loan loanReq (some loanAcct) (.error "EventBridge error") demoStore).store.loans.map
        (fun l => (l.status, l.loan_amount)) = [("approved", 10000)] ∧
    (process_loan loanReq (some loanAcct) (.error "EventBridge error") demoStore).response_status = 500 ∧
    (process_loan loanReq (some loanAcct) (.error "EventBridge error") demoStore).error_msg =
      some "EventBridge error" ∧
    (process_loan loanReq (some loanAcct) (.error "EventBridge error") demoStore).published = [] :=
  ⟨by decide, by decide, by decide, by decide⟩

/-- Claim C1 (amended): for every loan origination request that passes
validation and account resolution, the Loan Originator inserts the Loan
document directly with `status = approved` (not `pending`) before
publishing; when the publish succeeds the caller gets a 200 approval and
the `LoanGranted` envelope is on the bus, and when the publish fails the
failure is propagated to the caller as a 500 with the error text, nothing
is published, and the stored Loan nevertheless remains `approved` with no
error recorded. -/
theorem C1_loan_insert_approved (req : ProcessLoanRequest) (acct : AccountDetails)
    (pub : Except String Unit) (store : Store)
    (hamt : ¬ doubleRound req.loan_amount ≤ 0) :
    ((process_loan req (some acct) pub store).store.loans.map (fun l => l.status)) =
      store.loans.map (fun l => l.status) ++ ["approved"] ∧
    (pub = .ok () →
      (process_loan req (some acct) pub store).response_status = 200 ∧
      (process_loan req (some acct) pub store).approved = some true ∧
      (process_loan req (some acct) pub store).published =
        [LoanGrantedEvent.to_eventbridge ⟨acct.account_number, floatRepr (doubleRound req.loan_amount)⟩]) ∧
    (∀ e : String, pub = .error e →
      (process_loan req (some acct) pub store).response_status = 500 ∧
      (process_loan req (some acct) pub store).error_msg = some e ∧
      (process_loan req (some acct) pub store).published = []) := by
  cases pub with
  | ok u =>
    cases u
    refine ⟨?_, fun _ => ⟨?_, ?_, ?_⟩, fun e he => absurd he (by simp)⟩ <;>
      simp [process_loan, if_neg hamt, Store.applyOps, Store.applyOp]
  | error e =>
    refine ⟨?_, fun hcontra => absurd hcontra (by simp), fun e' he' => ?_⟩
    · simp [process_loan, if_neg hamt, Store.applyOps, Store.applyOp]
    · injection he' with hee
      subst hee
      refine ⟨?_, ?_, ?_⟩ <;> simp [process_loan, if_neg hamt, Store.applyOps, Store.applyOp]

/-- Witness for C1 (amended) at the fixture loan request with a failing
publish: the loan lands as `approved`, the caller sees the 500. -/
theorem C1_witness :
    ((process_loan loanReq (some loanAcct) (.error "boom") demoStore).store.loans.map
      (fun l => l.status)) = demoStore.loans.map (fun l => l.status) ++ ["approved"] ∧
    (process_loan loanReq (some loanAcct) (.error "boom") demoStore).response_status = 500 :=
  have h := C1_loan_insert_approved loanReq loanAcct (.error "boom") demoStore (by decide)
  ⟨h.1, (h.2.2 "boom" rfl).1⟩

/-- Counterexample to C2 as stated: a loan for 10^9 — at or above any
configured maximum exposure threshold a bank could have — is not
rejected: the Loan Originator approves it, publishes the `LoanGranted`
event, and stores the Loan as `approved`.  No upper bound exists anywhere
in `process_loan.py`. -/
theorem C2_counterexample :
    (process_loan hugeLoanReq (some loanAcct) (.ok ()) demoStore).approved = some true ∧
    (process_loan hugeLoanReq (some loanAcct) (.ok ()) demoStore).response_status = 200 ∧
    (process_loan hugeLoanReq (some loanAcct) (.ok ()) demoStore).published =
      [LoanGrantedEvent.to_eventbridge ⟨"1234567890", 1000000000⟩] ∧
    (process_loan hugeLoanReq (some loanAcct) (.ok ()) demoStore).store.loans.map
      (fun l => l.status) = ["approved"] :=
  ⟨by decide, by decide, by decide, by decide⟩

/-- Claim C2 (amended): the Loan Originator enforces no upper bound on
`loan_amount`; every request with a positive parsed amount and resolved
account details is approved when the publish succeeds — the approval
event is published and the stored Loan carries `status = approved` —
regardless of how large the amount is. -/
theorem C2_no_upper_bound (req : ProcessLoanRequest) (acct : AccountDetails) (store : Store)
    (hamt : 0 < doubleRound req.loan_amount) :
    (process_loan req (some acct) (.ok ()) store).approved = some true ∧
    (process_loan req (some acct) (.ok ()) store).response_status = 200 ∧
    (process_loan req (some acct) (.ok ()) store).published =
      [LoanGrantedEvent.to_eventbridge ⟨acct.account_number, floatRepr (doubleRound req.loan_amount)⟩] ∧
    ((process_loan req (some acct) (.ok ()) store).store.loans.map (fun l => l.status)) =
      store.loans.map (fun l => l.status) ++ ["approved"] := by
  refine ⟨?_, ?_, ?_, ?_⟩ <;>
    simp [process_loan, if_neg (not_le.mpr hamt), Store.applyOps, Store.applyOp]

/-- Witness for C2 (amended) at the 10^9 fixture request. -/
theorem C2_witness :
    (process_loan hugeLoanReq (some loanAcct) (.ok ()) demoStore).approved = some true ∧
    (process_loan hugeLoanReq (some loanAcct) (.ok ()) demoStore).store.loans.map
      (fun l => l.status) = demoStore.loans.map (fun l => l.status) ++ ["approved"] :=
  have h := C2_no_upper_bound hugeLoanReq loanAcct demoStore (by decide)
  ⟨h.1, h.2.2.2⟩

/-- Claim C3: in both addressing modes, when the pending Transaction has
been inserted and the publish then fails, the Transfer Initiator updates
that Transaction to terminal `status = failed` with the error text
attached, surfaces the failure to the caller (500 with the error), does
not retry (one insert, one status update, nothing published), and never
touches the account balances. -/
theorem C3_publish_failure_terminal_failed
    (reqS : SendMoneyRequest) (reqZ : ZelleRequest) (store : Store) (msg : String)
    (S R SZ RZ : Account)
    (hs : findByNumber store.accounts reqS.sender_account_number = some S)
    (hr : findByNumber store.accounts reqS.receiver_account_number = some R)
    (hpos : ¬ doubleRound reqS.amount ≤ 0)
    (hbal : ¬ S.balance < doubleRound reqS.amount)
    (hzs : findByEmail store.accounts reqZ.sender_email = some SZ)
    (hzr : findByEmail store.accounts reqZ.receiver_email = some RZ)
    (hzpos : ¬ doubleRound reqZ.amount ≤ 0)
    (hznum : ¬ (SZ.account_number = "" ∨ RZ.account_number = ""))
    (hzbal : ¬ SZ.balance < doubleRound reqZ.amount) :
    (send_money reqS (.error msg) store).response_status = 500 ∧
    (send_money reqS (.error msg) store).error_msg = some msg ∧
    (send_money reqS (.error msg) store).published = [] ∧
    (send_money reqS (.error msg) store).store.accounts = store.accounts ∧
    (send_money reqS (.error msg) store).store.transactions =
      store.transactions ++ [⟨S.account_number, R.account_number, doubleRound reqS.amount,
        reqS.reason.getD "Transfer", "failed", some msg⟩] ∧
    (zelle reqZ (.error msg) store).response_status = 500 ∧
    (zelle reqZ (.error msg) store).error_msg = some msg ∧
    (zelle reqZ (.error msg) store).published = [] ∧
    (zelle reqZ (.error msg) store).store.accounts = store.accounts ∧
    (zelle reqZ (.error msg) store).store.transactions =
      store.transactions ++ [⟨SZ.account_number, RZ.account_number, doubleRound reqZ.amount,
        reqZ.reason.getD "Zelle Transfer", "failed", some msg⟩] := by
  refine ⟨?_, ?_, ?_, ?_, ?_, ?_, ?_, ?_, ?_, ?_⟩ <;>
    simp [send_money, zelle, hs, hr, hpos, hbal, hzs, hzr, hzpos, hznum, hzbal,
      Store.applyOps, Store.applyOp, setTxnFields_append]

/-- Witness for C3 at the §8 fixtures with the bus failing with
"bus down". -/
theorem C3_witness :
    (send_money scenarioReq (.error "bus down") demoStore).response_status = 500 ∧
    (send_money scenarioReq (.error "bus down") demoStore).store.accounts = demoStore.accounts ∧
    (zelle zelleReq (.error "bus down") demoStore).store.transactions =
      demoStore.transactions ++ [⟨"ACC1", "ACC2", doubleRound (201/2),
        "Zelle Transfer", "failed", some "bus down"⟩] :=
  have h := C3_publish_failure_terminal_failed scenarioReq zelleReq demoStore "bus down"
    ⟨"ACC1", "alice@example.com", 1000⟩ ⟨"ACC2", "bob@example.com", 500⟩
    ⟨"ACC1", "alice@example.com", 1000⟩ ⟨"ACC2", "bob@example.com", 500⟩
    (by decide) (by decide) (by decide) (by decide) (by decide)
    (by decide) (by decide) (by decide) (by decide)
  ⟨h.1, h.2.2.2.1, h.2.2.2.2.2.2.2.2.2⟩

/-- Claim C8: in both addressing modes, a transfer with `amount <= 0` is
rejected as a validation failure, and a transfer whose (positive) amount
exceeds the sender's balance is rejected as an insufficient-funds
failure; in each case the outcome is exactly the early-return rejection —
no Transaction is created, nothing is written, nothing is published. -/
theorem C8_validation_and_funds_checks (reqS : SendMoneyRequest) (reqZ : ZelleRequest)
    (pub : Except String Unit) (store : Store) :
    (reqS.amount ≤ 0 → send_money reqS pub store = rejection 400 "Invalid amount" store) ∧
    (reqZ.amount ≤ 0 → zelle reqZ pub store = rejection 400 "Invalid amount" store) ∧
    (∀ S R : Account, findByNumber store.accounts reqS.sender_account_number = some S →
      findByNumber store.accounts reqS.receiver_account_number = some R →
      0 < doubleRound reqS.amount → S.balance < doubleRound reqS.amount →
      send_money reqS pub store = rejection 400 "Insufficient Balance" store) ∧
    (∀ S R : Account, findByEmail store.accounts reqZ.sender_email = some S →
      findByEmail store.accounts reqZ.receiver_email = some R →
      ¬ (S.account_number = "" ∨ R.account_number = "") →
      0 < doubleRound reqZ.amount → S.balance < doubleRound reqZ.amount →
      zelle reqZ pub store = rejection 400 "Insufficient Balance" store) := by
  refine ⟨fun h => ?_, fun h => ?_, fun S R hs hr hpos hlt => ?_, fun S R hs hr hnum hpos hlt => ?_⟩
  · have hd : doubleRound reqS.amount ≤ 0 := doubleRound_nonpos h
    simp [send_money, hd]
  · have hd : doubleRound reqZ.amount ≤ 0 := doubleRound_nonpos h
    simp [zelle, hd]
  · simp [send_money, hs, hr, not_le.mpr hpos, hlt]
  · simp [zelle, hs, hr, hnum, not_le.mpr hpos, hlt]

/-- Witness for C8: a zero-amount and an overdrawing transfer against the
fixture store, in both addressing modes. -/
theorem C8_witness :
    send_money ⟨"ACC1", "ACC2", 0, none⟩ (.ok ()) demoStore =
      rejection 400 "Invalid amount" demoStore ∧
    send_money ⟨"ACC1", "ACC2", 2000, none⟩ (.ok ()) demoStore =
      rejection 400 "Insufficient Balance" demoStore ∧
    zelle ⟨"alice@example.com", "bob@example.com", 0, none⟩ (.ok ()) demoStore =
      rejection 400 "Invalid amount" demoStore ∧
    zelle ⟨"alice@example.com", "bob@example.com", 2000, none⟩ (.ok ()) demoStore =
      rejection 400 "Insufficient Balance" demoStore :=
  have h1 := C8_validation_and_funds_checks ⟨"ACC1", "ACC2", 0, none⟩
    ⟨"alice@example.com", "bob@example.com", 0, none⟩ (.ok ()) demoStore
  have h2 := C8_validation_and_funds_checks ⟨"ACC1", "ACC2", 2000, none⟩
    ⟨"alice@example.com", "bob@example.com", 2000, none⟩ (.ok ()) demoStore
  ⟨h1.1 (by decide),
   h2.2.2.1 ⟨"ACC1", "alice@example.com", 1000⟩ ⟨"ACC2", "bob@example.com", 500⟩
     (by decide) (by decide) (by decide) (by decide),
   h1.2.1 (by decide),
   h2.2.2.2 ⟨"ACC1", "alice@example.com", 1000⟩ ⟨"ACC2", "bob@example.com", 500⟩
     (by decide) (by decide) (by decide) (by decide) (by decide)⟩

/-- Claim C6: for every `TransactionCompleted` envelope, the Balance
Updater debits the sender before any credit is attempted (every trace is
the sender debit alone or the sender debit followed by the receiver
credit), and when the sender update affects zero documents it reports a
fatal 500 and stops with the store untouched — the receiver is never
credited. -/
theorem C6_debit_before_credit (store : Store) (f t : String) (a : ℚ) (r dt : String) :
    ((update_balance ⟨TransactionCompletedEvent.SOURCE, dt, .transactionCompleted f t a r⟩ store).trace =
        [StoreOp.incBalance f (-(doubleRound (floatRepr a)))] ∨
     (update_balance ⟨TransactionCompletedEvent.SOURCE, dt, .transactionCompleted f t a r⟩ store).trace =
        [StoreOp.incBalance f (-(doubleRound (floatRepr a))),
         StoreOp.incBalance t (doubleRound (floatRepr a))]) ∧
    (incModifiedCount store.accounts f (-(doubleRound (floatRepr a))) = 0 →
      (update_balance ⟨TransactionCompletedEvent.SOURCE, dt, .transactionCompleted f t a r⟩ store).response_status = 500 ∧
      (update_balance ⟨TransactionCompletedEvent.SOURCE, dt, .transactionCompleted f t a r⟩ store).store = store ∧
      (update_balance ⟨TransactionCompletedEvent.SOURCE, dt, .transactionCompleted f t a r⟩ store).trace =
        [StoreOp.incBalance f (-(doubleRound (floatRepr a)))]) := by
  constructor
  · by_cases hmod : incModifiedCount store.accounts f (-(doubleRound (floatRepr a))) = 0
    · left
      simp [update_balance, TransactionCompletedEvent.from_eventbridge, hmod]
    · right
      simp [update_balance, TransactionCompletedEvent.from_eventbridge, hmod,
        Store.applyOps, Store.applyOp]
      try (split <;> rfl)
  · intro hmod
    have hacc : incFirstBalance store.accounts f (-(doubleRound (floatRepr a))) = store.accounts :=
      incFirstBalance_of_unmodified hmod
    refine ⟨?_, ?_, ?_⟩ <;>
      simp [update_balance, TransactionCompletedEvent.from_eventbridge, hmod,
        Store.applyOps, Store.applyOp, hacc]

/-- Witness for C6: a transfer event naming an unknown sender `"GHOST"`
against the fixture store is a fatal 500 with nothing changed. -/
theorem C6_witness :
    (update_balance ⟨TransactionCompletedEvent.SOURCE, TransactionCompletedEvent.TYPE,
        .transactionCompleted "GHOST" "ACC2" (1/10) "rent"⟩ demoStore).response_status = 500 ∧
    (update_balance ⟨TransactionCompletedEvent.SOURCE, TransactionCompletedEvent.TYPE,
        .transactionCompleted "GHOST" "ACC2" (1/10) "rent"⟩ demoStore).store = demoStore :=
  have h := C6_debit_before_credit demoStore "GHOST" "ACC2" (1/10) "rent" TransactionCompletedEvent.TYPE
  have h5 := h.2 (by decide)
  ⟨h5.1, h5.2.1⟩

/-- Counterexample to C10 as stated: with sender balance `float(0.1)`,
receiver balance `float(0.2)` and amount `float(0.1)`, the successful
invocation does not preserve the sum of the two balances — the credit
`0.2 + 0.1` rounds in binary64 while the debit `0.1 - 0.1` is exact. -/
theorem C10_counterexample :
    (update_balance tinyEnv tinyStore).response_status = 200 ∧
    ((update_balance tinyEnv tinyStore).store.accounts.map (fun x => x.balance)).sum ≠
      (tinyStore.accounts.map (fun x => x.balance)).sum :=
  ⟨by decide, by decide⟩

/-- Claim C10 (amended): for every `TransactionCompleted` envelope whose
sender and receiver exist and are distinct and whose two `$inc` updates
modify their documents, the successful invocation debits the sender and
credits the receiver by the same double amount — each balance being the
binary64 rounding of the exact result — leaves every other account
position unchanged, and preserves the sum of the two balances whenever
both roundings are exact (they are not always: see the counterexample). -/
theorem C10_sum_preservation (store : Store) (f t : String) (a : ℚ) (r dt : String) (S R : Account)
    (hS : findByNumber store.accounts f = some S)
    (hR : findByNumber store.accounts t = some R)
    (hft : f ≠ t)
    (hm1 : doubleRound (S.balance + -(doubleRound (floatRepr a))) ≠ S.balance)
    (hm2 : doubleRound (R.balance + doubleRound (floatRepr a)) ≠ R.balance) :
    (update_balance ⟨TransactionCompletedEvent.SOURCE, dt, .transactionCompleted f t a r⟩ store).response_status = 200 ∧
    findByNumber (update_balance ⟨TransactionCompletedEvent.SOURCE, dt, .transactionCompleted f t a r⟩ store).store.accounts f =
      some { S with balance := doubleRound (S.balance + -(doubleRound (floatRepr a))) } ∧
    findByNumber (update_balance ⟨TransactionCompletedEvent.SOURCE, dt, .transactionCompleted f t a r⟩ store).store.accounts t =
      some { R with balance := doubleRound (R.balance + doubleRound (floatRepr a)) } ∧
    (∀ i : ℕ, (∀ x : Account, store.accounts[i]? = some x →
        x.account_number ≠ f ∧ x.account_number ≠ t) →
      (update_balance ⟨TransactionCompletedEvent.SOURCE, dt, .transactionCompleted f t a r⟩ store).store.accounts[i]? =
        store.accounts[i]?) ∧
    (doubleRound (S.balance + -(doubleRound (floatRepr a))) = S.balance - doubleRound (floatRepr a) →
      doubleRound (R.balance + doubleRound (floatRepr a)) = R.balance + doubleRound (floatRepr a) →
      doubleRound (S.balance + -(doubleRound (floatRepr a))) +
        doubleRound (R.balance + doubleRound (floatRepr a)) = S.balance + R.balance) := by
  obtain ⟨h200, hacc⟩ := @update_balance_tc_success store f t a r dt S R hS hR hft hm1 hm2
  refine ⟨h200, ?_, ?_, ?_, ?_⟩
  · rw [hacc, findByNumber_incFirst_ne hft, findByNumber_incFirst_self, hS]
    rfl
  · rw [hacc, findByNumber_incFirst_self, findByNumber_incFirst_ne (Ne.symm hft), hR]
    rfl
  · intro i hi
    rw [hacc]
    have e1 : (incFirstBalance store.accounts f (-(doubleRound (floatRepr a))))[i]? =
        store.accounts[i]? :=
      incFirst_getElem_ne (fun x hx => (hi x hx).1)
    have e2 : (incFirstBalance (incFirstBalance store.accounts f (-(doubleRound (floatRepr a)))) t
        (doubleRound (floatRepr a)))[i]? =
        (incFirstBalance store.accounts f (-(doubleRound (floatRepr a))))[i]? :=
      incFirst_getElem_ne (fun x hx => (hi x (e1 ▸ hx)).2)
    exact e2.trans e1
  · intro hx1 hx2
    rw [hx1, hx2]
    ring

/-- Witness for C10 (amended) at the §8 scenario numbers (100.50 between
1000.00 and 500.00), where both binary64 results are exact and the sum is
preserved. -/
theorem C10_witness :
    (update_balance ⟨TransactionCompletedEvent.SOURCE, TransactionCompletedEvent.TYPE,
        .transactionCompleted "ACC1" "ACC2" (201/2) "rent"⟩ demoStore).response_status = 200 ∧
    doubleRound ((1000 : ℚ) + -(doubleRound (floatRepr (201/2)))) +
      doubleRound ((500 : ℚ) + doubleRound (floatRepr (201/2))) = 1000 + 500 :=
  have h := C10_sum_preservation demoStore "ACC1" "ACC2" (201/2) "rent" TransactionCompletedEvent.TYPE
    ⟨"ACC1", "alice@example.com", 1000⟩ ⟨"ACC2", "bob@example.com", 500⟩
    (by decide) (by decide) (by decide) (by decide) (by decide)
  ⟨h.1, h.2.2.2.2 (by decide) (by decide)⟩

/-- Counterexample to C7 as stated: the fully valid transfer of the
decimal amount 0.10 from a sender with balance 1000.00 (both accounts
exist, funds suffice, the Transaction completes and the Balance Updater
succeeds) does not satisfy `sender_balance_before - amount ==
sender_balance_after` exactly: binary64 rounding drifts, whether `amount`
is read as the decimal 0.10 or as the double `float(0.1)`. -/
theorem C7_counterexample :
    (send_money dimeReq (.ok ()) demoStore).store.transactions.map (fun x => x.status) =
      ["completed"] ∧
    (sendMoneyThenUpdate dimeReq demoStore).response_status = 200 ∧
    ((sendMoneyThenUpdate dimeReq demoStore).store.accounts.map (fun x => x.balance))[0]? ≠
      some (1000 - 1/10) ∧
    ((sendMoneyThenUpdate dimeReq demoStore).store.accounts.map (fun x => x.balance))[0]? ≠
      some (1000 - doubleRound (1/10)) :=
  ⟨by decide, by decide, by decide, by decide⟩

/-- Claim C7 (amended): for every valid transfer (both accounts exist,
`0 < amount ≤ sender balance`, the wire round-trip preserves the parsed
double, the two `$inc` updates modify their documents), the Transaction
reaches `completed`, the Balance Updater succeeds, and the sender and
receiver balances become the binary64 roundings of
`before − amount` and `before + amount`; the subtraction is exact — no
rounding drift — exactly when those roundings are exact, as for 100.50
between 1000.00 and 500.00 (see the witness), but not for all decimal
amounts (see the counterexample). -/
theorem C7_valid_transfer_flow (req : SendMoneyRequest) (store : Store) (S R : Account)
    (hS : findByNumber store.accounts req.sender_account_number = some S)
    (hR : findByNumber store.accounts req.receiver_account_number = some R)
    (hpos : 0 < doubleRound req.amount)
    (hbal : doubleRound req.amount ≤ S.balance)
    (hwire : doubleRound (floatRepr (doubleRound req.amount)) = doubleRound req.amount)
    (hft : S.account_number ≠ R.account_number)
    (hm1 : doubleRound (S.balance + -(doubleRound req.amount)) ≠ S.balance)
    (hm2 : doubleRound (R.balance + doubleRound req.amount) ≠ R.balance) :
    (send_money req (.ok ()) store).response_status = 200 ∧
    (send_money req (.ok ()) store).store.transactions =
      store.transactions ++ [⟨S.account_number, R.account_number, doubleRound req.amount,
        req.reason.getD "Transfer", "completed", none⟩] ∧
    (sendMoneyThenUpdate req store).response_status = 200 ∧
    findByNumber (sendMoneyThenUpdate req store).store.accounts S.account_number =
      some { S with balance := doubleRound (S.balance + -(doubleRound req.amount)) } ∧
    findByNumber (sendMoneyThenUpdate req store).store.accounts R.account_number =
      some { R with balance := doubleRound (R.balance + doubleRound req.amount) } := by
  have hS0 : List.find? (fun x => x.account_number == req.sender_account_number) store.accounts =
      some S := hS
  have hR0 : List.find? (fun x => x.account_number == req.receiver_account_number) store.accounts =
      some R := hR
  have hSn : S.account_number = req.sender_account_number := by
    simpa using List.find?_some hS0
  have hRn : R.account_number = req.receiver_account_number := by
    simpa using List.find?_some hR0
  have hresp : (send_money req (.ok ()) store).response_status = 200 := by
    simp [send_money, hS, hR, not_le.mpr hpos, not_lt.mpr hbal]
  have htxn : (send_money req (.ok ()) store).store.transactions =
      store.transactions ++ [⟨S.account_number, R.account_number, doubleRound req.amount,
        req.reason.getD "Transfer", "completed", none⟩] := by
    simp [send_money, hS, hR, not_le.mpr hpos, not_lt.mpr hbal,
      Store.applyOps, Store.applyOp, setTxnFields_append]
  have haccp : (send_money req (.ok ()) store).store.accounts = store.accounts := by
    simp [send_money, hS, hR, not_le.mpr hpos, not_lt.mpr hbal, Store.applyOps, Store.applyOp]
  have hpub : (send_money req (.ok ()) store).published =
      [⟨TransactionCompletedEvent.SOURCE, TransactionCompletedEvent.TYPE,
        .transactionCompleted S.account_number R.account_number (doubleRound req.amount)
          (req.reason.getD "Transfer")⟩] := by
    simp [send_money, hS, hR, not_le.mpr hpos, not_lt.mpr hbal,
      TransactionCompletedEvent.to_eventbridge, hwire]
  have hcomp : sendMoneyThenUpdate req store =
      update_balance ⟨TransactionCompletedEvent.SOURCE, TransactionCompletedEvent.TYPE,
        .transactionCompleted S.account_number R.account_number (doubleRound req.amount)
          (req.reason.getD "Transfer")⟩ (send_money req (.ok ()) store).store := by
    rw [sendMoneyThenUpdate, hpub]
  have hS' : findByNumber (send_money req (.ok ()) store).store.accounts S.account_number = some S := by
    rw [haccp, hSn]; exact hS
  have hR' : findByNumber (send_money req (.ok ()) store).store.accounts R.account_number = some R := by
    rw [haccp, hRn]; exact hR
  have hm1' : doubleRound (S.balance + -(doubleRound (floatRepr (doubleRound req.amount)))) ≠ S.balance := by
    rw [hwire]; exact hm1
  have hm2' : doubleRound (R.balance + doubleRound (floatRepr (doubleRound req.amount))) ≠ R.balance := by
    rw [hwire]; exact hm2
  obtain ⟨h200, hacc⟩ := @update_balance_tc_success (send_money req (.ok ()) store).store
    S.account_number R.account_number (doubleRound req.amount) (req.reason.getD "Transfer")
    TransactionCompletedEvent.TYPE S R hS' hR' hft hm1' hm2'
  have hS2 : findByNumber store.accounts S.account_number = some S := by
    rw [hSn]; exact hS
  have hR2 : findByNumber store.accounts R.account_number = some R := by
    rw [hRn]; exact hR
  refine ⟨hresp, htxn, ?_, ?_, ?_⟩
  · rw [hcomp]; exact h200
  · rw [hcomp, hacc, hwire, findByNumber_incFirst_ne hft, findByNumber_incFirst_self, haccp, hS2]
    rfl
  · rw [hcomp, hacc, hwire, findByNumber_incFirst_self, findByNumber_incFirst_ne (Ne.symm hft),
      haccp, hR2]
    rfl

/-- Witness for C7 (amended): the §8 scenario — amount 100.50, sender
1000.00, receiver 500.00 — ends with Transaction `completed`, sender
899.50 and receiver 600.50, exactly. -/
theorem C7_witness :
    (send_money scenarioReq (.ok ()) demoStore).store.transactions =
      demoStore.transactions ++ [⟨"ACC1", "ACC2", doubleRound (201/2), "Test transfer",
        "completed", none⟩] ∧
    findByNumber (sendMoneyThenUpdate scenarioReq demoStore).store.accounts "ACC1" =
      some ⟨"ACC1", "alice@example.com", 1799/2⟩ ∧
    findByNumber (sendMoneyThenUpdate scenarioReq demoStore).store.accounts "ACC2" =
      some ⟨"ACC2", "bob@example.com", 1201/2⟩ :=
  have h := C7_valid_transfer_flow scenarioReq demoStore
    ⟨"ACC1", "alice@example.com", 1000⟩ ⟨"ACC2", "bob@example.com", 500⟩
    (by decide) (by decide) (by decide) (by decide) (by decide) (by decide) (by decide) (by decide)
  ⟨h.2.1.trans (by decide), h.2.2.2.1.trans (by decide), h.2.2.2.2.trans (by decide)⟩

end MartianBank
